import Mathlib

/-!
Verification of the per-frame simulation core of the radical-aces-js
repository: the projectile lifecycle / collision engine
(src/weapons/ProjectileManager.ts, Projectile.ts), the weapon
rate-limiting controller (src/weapons/WeaponSystem.ts) and the aircraft
flight model (PlayerAircraft.ts).

JavaScript numbers are modelled as exact rationals; the only places the
source leaves rational arithmetic are `Math.sqrt` (inside
`THREE.Vector3.normalize`) and the trigonometry of `applyEuler`.  The
square root is modelled by `sqrtQ`, an exact rational square root that
agrees with the source on perfect squares (every theorem whose
conclusion depends on the value of a square root carries the hypothesis
that the length is exactly representable); the Euler-angle trigonometry
is modelled over the real numbers with `Real.cos` / `Real.sin`.
-/

namespace RadicalAces

/-- Exact model of a THREE.Vector3 value: three numeric components. -/
structure Vec3 where
  x : ℚ
  y : ℚ
  z : ℚ
deriving DecidableEq

/-- Componentwise vector addition (THREE.Vector3.add). -/
def vadd (a b : Vec3) : Vec3 := ⟨a.x + b.x, a.y + b.y, a.z + b.z⟩

/-- Scalar multiplication (THREE.Vector3.multiplyScalar). -/
def vscale (a : ℚ) (v : Vec3) : Vec3 := ⟨a * v.x, a * v.y, a * v.z⟩

/-- Squared distance between two points (THREE.Vector3.distanceToSquared). -/
def dist2 (a b : Vec3) : ℚ :=
  (a.x - b.x) * (a.x - b.x) + (a.y - b.y) * (a.y - b.y) + (a.z - b.z) * (a.z - b.z)

/-- Squared Euclidean length of a vector (THREE.Vector3.lengthSq). -/
def vlen2 (v : Vec3) : ℚ := v.x * v.x + v.y * v.y + v.z * v.z

/-- Exact rational square root: square root of numerator over square root
of denominator, exact whenever both are perfect squares (the denominator
of a rational in lowest terms is a perfect square iff the rational is a
square).  Stands in for the floating-point `Math.sqrt`; the two agree on
exactly representable lengths. -/
def sqrtQ (q : ℚ) : ℚ := (Nat.sqrt q.num.toNat : ℚ) / (Nat.sqrt q.den : ℚ)

/-- JavaScript `a || b` on an optional numeric value: the default is used
when the value is absent (`undefined`) or `0` (falsy). -/
def jsOr {α : Type} [Zero α] [DecidableEq α] (v : Option α) (d : α) : α :=
  match v with
  | none => d
  | some x => if x = 0 then d else x

/-- THREE.Vector3.length: Euclidean length, through `sqrtQ`.  It is zero
exactly on the zero vector (the numerator of a positive rational is
positive, so its integer square root is positive). -/
def vlength (v : Vec3) : ℚ := sqrtQ (vlen2 v)

/-- THREE.Vector3.normalize: `divideScalar(length() || 1)`, i.e. scale by
the reciprocal of the length, or of 1 when the length is zero — a
zero-length vector is returned unchanged, not rejected. -/
def vnormalize (v : Vec3) : Vec3 :=
  let l := vlength v
  vscale (1 / (if l = 0 then 1 else l)) v

/-- ProjectileConfig (Projectile.ts): `size` and `hitRadius` are optional
fields; `color` is a visual hint with no effect on simulation state and
is not modelled. -/
structure ProjectileConfig where
  speed : ℚ
  damage : ℚ
  lifetime : ℚ
  size : Option ℚ
  hitRadius : Option ℚ
deriving DecidableEq

/-- `Partial<ProjectileConfig>` as received by
ProjectileManager.createProjectile: every field optional. -/
structure ProjectileConfigOverride where
  speed : Option ℚ
  damage : Option ℚ
  lifetime : Option ℚ
  size : Option ℚ
  hitRadius : Option ℚ
deriving DecidableEq

/-- The override with no fields set (caller passes no config). -/
def emptyOverride : ProjectileConfigOverride :=
  { speed := none, damage := none, lifetime := none, size := none, hitRadius := none }

/-- ProjectileManager.defaultProjectileConfig: speed 350, damage 3,
lifetime 1500 ms, size 1.2, hitRadius 2.4. -/
def defaultProjectileConfig : ProjectileConfig :=
  { speed := 350, damage := 3, lifetime := 1500, size := some (6/5), hitRadius := some (12/5) }

/-- The spread merge `{ ...default, ...config }` in createProjectile:
fields present in the caller's config override the defaults. -/
def mergeConfig (c : ProjectileConfigOverride) : ProjectileConfig :=
  { speed := c.speed.getD defaultProjectileConfig.speed
    damage := c.damage.getD defaultProjectileConfig.damage
    lifetime := c.lifetime.getD defaultProjectileConfig.lifetime
    size := c.size.orElse fun _ => defaultProjectileConfig.size
    hitRadius := c.hitRadius.orElse fun _ => defaultProjectileConfig.hitRadius }

/-- The simulation state of a Projectile (Projectile.ts): the visual mesh
is an opaque render handle and is not modelled. -/
structure Projectile where
  position : Vec3
  direction : Vec3
  speed : ℚ
  damage : ℚ
  hitRadius : ℚ
  velocity : Vec3
  lifetime : ℚ
  age : ℚ
  active : Bool
deriving DecidableEq

/-- The Projectile constructor: clones the position, normalizes the
direction, takes `hitRadius = config.hitRadius || (config.size || 1) * 2`,
precomputes `velocity = direction * speed`, starts at age 0, active. -/
def mkProjectile (position direction : Vec3) (config : ProjectileConfig) : Projectile :=
  let dir := vnormalize direction
  { position := position
    direction := dir
    speed := config.speed
    damage := config.damage
    hitRadius := jsOr config.hitRadius (jsOr config.size 1 * 2)
    velocity := vscale config.speed dir
    lifetime := config.lifetime
    age := 0
    active := true }

/-- Projectile.update(deltaTime): an inactive projectile returns false
untouched; otherwise the age grows by `deltaTime * 1000` (ms) and, when
it reaches the lifetime, the projectile is deactivated and returns false
before the movement step; otherwise the position advances by
`velocity * deltaTime` and it returns true. -/
def Projectile.update (p : Projectile) (deltaTime : ℚ) : Projectile × Bool :=
  if p.active = false then (p, false)
  else
    let age := p.age + deltaTime * 1000
    if p.lifetime ≤ age then ({ p with age := age, active := false }, false)
    else ({ p with age := age, position := vadd p.position (vscale deltaTime p.velocity) }, true)

/-- Projectile.checkCollision(targetPosition, targetRadius): false when
inactive, otherwise compares the squared distance strictly against the
squared radius sum (`distanceSquared < radiusSum * radiusSum`). -/
def Projectile.checkCollision (p : Projectile) (targetPosition : Vec3) (targetRadius : ℚ) : Bool :=
  if p.active = false then false
  else
    let distanceSquared := dist2 p.position targetPosition
    let radiusSum := p.hitRadius + targetRadius
    decide (distanceSquared < radiusSum * radiusSum)

/-- Projectile.deactivate. -/
def Projectile.deactivate (p : Projectile) : Projectile := { p with active := false }

/-- ProjectileManager.maxProjectiles: the hard capacity of 20. -/
def maxProjectiles : Nat := 20

/-- ProjectileManager.createProjectile: when the store is at capacity the
oldest entry (the array head) is shifted off and disposed first, then the
merged config builds the new projectile, which is pushed at the end.  The
store is the manager's `projectiles` array in insertion order; the new
projectile is also returned.  No direction check of any kind is made. -/
def createProjectile (projectiles : List Projectile) (position direction : Vec3)
    (config : ProjectileConfigOverride) : List Projectile × Projectile :=
  let afterEvict := if maxProjectiles ≤ projectiles.length then projectiles.tail else projectiles
  let fullConfig := mergeConfig config
  let p := mkProjectile position direction fullConfig
  (afterEvict ++ [p], p)

/-- A sequence of createProjectile calls on one manager, left to right,
each call given its (position, direction, config) arguments. -/
def runSpawns (store : List Projectile) :
    List (Vec3 × Vec3 × ProjectileConfigOverride) → List Projectile
  | [] => store
  | a :: rest => runSpawns (createProjectile store a.1 a.2.1 a.2.2).1 rest

/-- ProjectileManager.checkCollisions: sweeps the array from the last
index down to 0; each projectile that passes checkCollision is pushed to
the result, deactivated and spliced out of the store.  Returns the
collision list (in reverse insertion order, the order the loop pushes
them) together with the remaining store. -/
def checkCollisions : List Projectile → Vec3 → ℚ → List Projectile × List Projectile
  | [], _, _ => ([], [])
  | p :: rest, targetPosition, targetRadius =>
    let res := checkCollisions rest targetPosition targetRadius
    if p.checkCollision targetPosition targetRadius then
      (res.1 ++ [p.deactivate], res.2)
    else
      (res.1, p :: res.2)

/-- WeaponSystem's mutable controller state (WeaponSystem.ts): selected
weapon index, last successful fire timestamp, trigger-held flag. -/
structure WeaponState where
  currentWeaponIndex : Nat
  lastFireTime : ℚ
  isFiring : Bool
deriving DecidableEq

/-- The fixed minimum fire interval of WeaponSystem.tryFireWeapon
(200 ms), independent of the weapon's nominal fireRate. -/
def minFireInterval : ℚ := 200

/-- WeaponSystem.tryFireWeapon(currentTime): the rate check compares
`Date.now() - lastFireTime` against minFireInterval — the body reads the
global clock, which the embedding makes explicit as the `dateNow`
argument; the `currentTime` parameter mirrors the source's parameter,
which the decision never uses.  On success it calls fireWeapon (exactly
one createProjectile call) and records `lastFireTime = dateNow`.  Returns
the new state and the number of createProjectile calls made. -/
def tryFireWeapon (s : WeaponState) (currentTime : ℚ) (dateNow : ℚ) : WeaponState × Nat :=
  if dateNow - s.lastFireTime < minFireInterval then (s, 0)
  else ({ s with lastFireTime := dateNow }, 1)

/-- WeaponSystem.update(deltaTime, timeManager): fires at most once, only
while the trigger is held.  `dateNow` is the value the body's global
`Date.now()` read returns during this call. -/
def weaponUpdate (s : WeaponState) (deltaTime timeManager dateNow : ℚ) : WeaponState × Nat :=
  if s.isFiring then tryFireWeapon s timeManager dateNow else (s, 0)

/-- Per-frame boolean key states read by PlayerAircraft.handleInput:
arrow/WASD pitch and turn keys, SHIFT (accelerate), Z (decelerate). -/
structure FrameInput where
  up : Bool
  down : Bool
  left : Bool
  right : Bool
  shiftKey : Bool
  zKey : Bool
deriving DecidableEq, Fintype

/-- A vector with real components, for the velocity and position values
that the source derives through floating-point trigonometry. -/
structure RVec3 where
  x : ℝ
  y : ℝ
  z : ℝ

/-- The simulation state of PlayerAircraft: position and velocity (real,
trigonometry-derived), Euler rotation in YXZ order (exact rationals —
handleInput only ever applies rational arithmetic to it), throttle,
acceleration flags, model type and the banked-turn flag.  The unused
characteristic fields of the source (accelerationRate, turnRate, ... —
read nowhere) and the visual mesh are not modelled. -/
structure AircraftState where
  position : RVec3
  velocity : RVec3
  rotation : Vec3
  maxSpeed : ℚ
  throttle : ℚ
  isAccelerating : Bool
  isDecelerating : Bool
  modelType : ℤ
  isInBankedTurn : Bool

/-- The local `turnRate = 0.025` constant of handleInput. -/
def turnRateC : ℚ := 1/40

/-- The `transitionRate = 0.3` blend factor of handleInput. -/
def transitionRateC : ℚ := 3/10

/-- The target-seeking step handleInput applies to pitch and roll: snap
to the target when within 0.01, otherwise move 0.3 of the gap. -/
def seekAngle (current target : ℚ) : ℚ :=
  if |current - target| < 1/100 then target
  else current + (target - current) * transitionRateC

/-- The target pitch selected by handleInput's branch chain: the two
banked-turn combinations and plain up take -0.3, plain down takes 0.3,
otherwise 0. -/
def targetPitch (i : FrameInput) : ℚ :=
  if i.left && i.up then -(3/10)
  else if i.right && i.up then -(3/10)
  else if i.up then -(3/10)
  else if i.down then 3/10
  else 0

/-- The target roll selected by handleInput's branch chain: ±1.4 in a
banked turn, ±1.2 for a plain turn, otherwise 0. -/
def targetRoll (i : FrameInput) : ℚ :=
  if i.left && i.up then -(7/5)
  else if i.right && i.up then 7/5
  else if i.left then -(6/5)
  else if i.right then 6/5
  else 0

/-- The yaw after handleInput's branch chain: integrated directly, at
`turnRate * 3.0` in a banked turn and `turnRate * 2.5` for a plain
turn (left increases yaw, right decreases it). -/
def yawAfter (i : FrameInput) (y : ℚ) : ℚ :=
  if i.left && i.up then y + turnRateC * 3
  else if i.right && i.up then y - turnRateC * 3
  else if i.left then y + turnRateC * (5/2)
  else if i.right then y - turnRateC * (5/2)
  else y

/-- Whether handleInput's branch chain enters the banked-turn regime
(the diagonal combinations take precedence over single-axis turns). -/
def bankedAfter (i : FrameInput) : Bool :=
  (i.left && i.up) || (i.right && i.up)

/-- PlayerAircraft.handleInput: sets the acceleration flags from
SHIFT / Z, picks the branch (banked turn combinations first, then the
single-axis keys), integrates yaw directly and eases pitch and roll
toward their targets with `seekAngle`. -/
def handleInput (s : AircraftState) (i : FrameInput) : AircraftState :=
  { s with
    isAccelerating := i.shiftKey
    isDecelerating := i.zKey
    isInBankedTurn := bankedAfter i
    rotation :=
      { x := seekAngle s.rotation.x (targetPitch i)
        y := yawAfter i s.rotation.y
        z := seekAngle s.rotation.z (targetRoll i) } }

/-- The forward direction `(0,0,1).applyEuler(rotation)` for a THREE
Euler in `YXZ` order: the z-roll fixes the forward axis, so the result
is `(cos x sin y, -sin x, cos x cos y)`. -/
noncomputable def eulerDirection (rot : Vec3) : RVec3 :=
  { x := Real.cos (rot.x : ℝ) * Real.sin (rot.y : ℝ)
    y := -Real.sin (rot.x : ℝ)
    z := Real.cos (rot.x : ℝ) * Real.cos (rot.y : ℝ) }

/-- PlayerAircraft.updatePhysics(deltaTime): throttle steps by +0.05
clamped at 1 while accelerating, else by -0.08 clamped at 0 while
decelerating; velocity is the forward direction times
`maxSpeed * throttle * deltaTime * 3.0`, plus a lift term
`0.005 * throttle * deltaTime * 60` on y when the (updated) throttle
exceeds 0.3 and a constant gravity decrement `0.003 * deltaTime * 60`.
Rotation is never modified. -/
noncomputable def updatePhysics (s : AircraftState) (deltaTime : ℚ) : AircraftState :=
  let throttle : ℚ :=
    if s.isAccelerating then min (s.throttle + 1/20) 1
    else if s.isDecelerating then max (s.throttle - 2/25) 0
    else s.throttle
  let baseSpeed : ℚ := s.maxSpeed * throttle
  let dir := eulerDirection s.rotation
  let scaleF : ℝ := (baseSpeed : ℝ) * (deltaTime : ℝ) * 3
  let vy0 : ℝ := dir.y * scaleF
  let vy1 : ℝ := if (3/10 : ℚ) < throttle
    then vy0 + ((1/200 : ℚ) : ℝ) * (throttle : ℝ) * (deltaTime : ℝ) * 60
    else vy0
  { s with
    throttle := throttle
    velocity :=
      { x := dir.x * scaleF
        y := vy1 - ((3/1000 : ℚ) : ℝ) * (deltaTime : ℝ) * 60
        z := dir.z * scaleF } }

open Classical in
/-- PlayerAircraft.updateTransform: adds the (already time-scaled)
velocity to the position, then applies the hard ground clamp — below
height 5 the height snaps to 5 and the vertical velocity is zeroed.
The mesh-rotation copy and the cosmetic control-surface deflection do
not touch the simulation state and are not modelled. -/
noncomputable def updateTransform (s : AircraftState) : AircraftState :=
  let px := s.position.x + s.velocity.x
  let py := s.position.y + s.velocity.y
  let pz := s.position.z + s.velocity.z
  { s with
    position := { x := px, y := if py < 5 then 5 else py, z := pz }
    velocity := { s.velocity with y := if py < 5 then 0 else s.velocity.y } }

/-- PlayerAircraft.update(deltaTime, inputManager): handleInput, then
updatePhysics, then updateTransform. -/
noncomputable def frame (s : AircraftState) (i : FrameInput) (deltaTime : ℚ) : AircraftState :=
  updateTransform (updatePhysics (handleInput s i) deltaTime)

/-- A run of consecutive frames, each with its input and delta-time. -/
noncomputable def runFrames (s : AircraftState) : List (FrameInput × ℚ) → AircraftState
  | [] => s
  | f :: rest => runFrames (frame s f.1 f.2) rest

/-- The PlayerAircraft constructor: position (0, 100, 0), zero velocity
and rotation, `maxSpeed = config.maxSpeed || 200`,
`modelType = config.modelType || 1`, zero throttle, flags cleared. -/
def initAircraft (cfgMaxSpeed : Option ℚ) (cfgModelType : Option ℤ) : AircraftState :=
  { position := ⟨0, 100, 0⟩
    velocity := ⟨0, 0, 0⟩
    rotation := ⟨0, 0, 0⟩
    maxSpeed := jsOr cfgMaxSpeed 200
    throttle := 0
    isAccelerating := false
    isDecelerating := false
    modelType := jsOr cfgModelType 1
    isInBankedTurn := false }

/-- PlayerAircraft.resetState: zeroes velocity, rotation and throttle;
position, maxSpeed and modelType are left as they are. -/
def resetState (s : AircraftState) : AircraftState :=
  { s with velocity := ⟨0, 0, 0⟩, rotation := ⟨0, 0, 0⟩, throttle := 0 }

/-- The five-entry aircraft model table of changeAircraftModel. -/
def aircraftModels : List (String × ℚ) :=
  [("E-7 Sky Bullet", 120), ("BP-6 Hammer Head", 100), ("E-9 Dragon Bird", 90),
   ("EXA-1 Destroyer", 80), ("Silver F-51 Legend", 76)]

/-- The error report changeAircraftModel emits for an id outside 1..5. -/
def invalidModelMsg : String := "Invalid model type: must be between 1-5."

/-- PlayerAircraft.changeAircraftModel(modelType): ids outside 1..5 are
rejected with an error report and the state is returned unchanged; a
valid id updates modelType and remaps maxSpeed from the model table
(index `modelType - 1`).  The asynchronous visual model load touches no
simulation state. -/
def changeAircraftModel (s : AircraftState) (modelType : ℤ) : AircraftState × Option String :=
  if modelType < 1 ∨ 5 < modelType then (s, some invalidModelMsg)
  else
    let speed := ((aircraftModels.get? (modelType - 1).toNat).map Prod.snd).getD 0
    ({ s with modelType := modelType, maxSpeed := speed }, none)

/-- PlayerAircraft.setModelType(modelType): returns immediately (no
error, no remap) when the id equals the current modelType, otherwise
delegates to changeAircraftModel. -/
def setModelType (s : AircraftState) (modelType : ℤ) : AircraftState × Option String :=
  if modelType = s.modelType then (s, none)
  else changeAircraftModel s modelType

/-- The model speed table as the specification states it, for comparing
the code's list lookup against: 1 ↦ 120, 2 ↦ 100, 3 ↦ 90, 4 ↦ 80,
5 ↦ 76. -/
def specModelSpeed (modelType : ℤ) : ℚ :=
  if modelType = 1 then 120
  else if modelType = 2 then 100
  else if modelType = 3 then 90
  else if modelType = 4 then 80
  else 76

/-- A concrete aircraft state (the constructor's default configuration),
used to instantiate theorems at explicit inputs. -/
def demoAircraft : AircraftState := initAircraft none none

/-- A projectile constructed exactly on the collision boundary for a
target of radius 2 at distance 5: configured hit radius 3. -/
def boundaryProjectile : Projectile :=
  mkProjectile ⟨0, 0, 0⟩ ⟨0, 0, 1⟩
    { speed := 350, damage := 3, lifetime := 1500, size := none, hitRadius := some 3 }

lemma mkProjectile_position (p d : Vec3) (c : ProjectileConfig) :
    (mkProjectile p d c).position = p := rfl

lemma mkProjectile_direction (p d : Vec3) (c : ProjectileConfig) :
    (mkProjectile p d c).direction = vnormalize d := rfl

lemma mkProjectile_hitRadius (p d : Vec3) (c : ProjectileConfig) :
    (mkProjectile p d c).hitRadius = jsOr c.hitRadius (jsOr c.size 1 * 2) := rfl

lemma mkProjectile_lifetime (p d : Vec3) (c : ProjectileConfig) :
    (mkProjectile p d c).lifetime = c.lifetime := rfl

lemma mkProjectile_age (p d : Vec3) (c : ProjectileConfig) :
    (mkProjectile p d c).age = 0 := rfl

lemma mkProjectile_active (p d : Vec3) (c : ProjectileConfig) :
    (mkProjectile p d c).active = true := rfl

/-- The collision sweep collects exactly the projectiles that pass
checkCollision, in reverse insertion order, deactivated. -/
lemma checkCollisions_fst (store : List Projectile) (t : Vec3) (r : ℚ) :
    (checkCollisions store t r).1 =
      ((store.filter fun q => q.checkCollision t r).map Projectile.deactivate).reverse := by
  induction store with
  | nil => rfl
  | cons p rest ih =>
    by_cases h : p.checkCollision t r = true
    · simp [checkCollisions, h, List.filter_cons, ih]
    · simp only [Bool.not_eq_true] at h
      simp [checkCollisions, h, List.filter_cons, ih]

/-- The collision sweep leaves exactly the projectiles that fail
checkCollision, in their original order. -/
lemma checkCollisions_snd (store : List Projectile) (t : Vec3) (r : ℚ) :
    (checkCollisions store t r).2 =
      store.filter fun q => !(q.checkCollision t r) := by
  induction store with
  | nil => rfl
  | cons p rest ih =>
    by_cases h : p.checkCollision t r = true
    · simp [checkCollisions, h, List.filter_cons, ih]
    · simp only [Bool.not_eq_true] at h
      simp [checkCollisions, h, List.filter_cons, ih]

/-- Claim C1 (amended): for an active projectile the collision test is a
strict comparison — a hit is reported iff the squared distance to the
target is strictly below the squared radius sum (equivalently, iff
`d < hitRadius + targetRadius`); the boundary `d = hitRadius + r` is a
miss, and the manager sweep reports exactly the projectiles passing that
strict test. -/
theorem checkCollision_strict (p : Projectile) (targetPosition : Vec3) (targetRadius : ℚ)
    (store : List Projectile) (hp : p.active = true) :
    (p.checkCollision targetPosition targetRadius = true ↔
      dist2 p.position targetPosition <
        (p.hitRadius + targetRadius) * (p.hitRadius + targetRadius)) ∧
    (dist2 p.position targetPosition =
        (p.hitRadius + targetRadius) * (p.hitRadius + targetRadius) →
      p.checkCollision targetPosition targetRadius = false) ∧
    (checkCollisions store targetPosition targetRadius).1 =
      ((store.filter fun q => q.checkCollision targetPosition targetRadius).map
        Projectile.deactivate).reverse ∧
    (checkCollisions store targetPosition targetRadius).2 =
      store.filter fun q => !(q.checkCollision targetPosition targetRadius) := by
  refine ⟨?_, ?_, checkCollisions_fst _ _ _, checkCollisions_snd _ _ _⟩
  · simp [Projectile.checkCollision, hp]
  · intro h
    simp [Projectile.checkCollision, hp, h]

/-- Claim C1 witness: a projectile with hit radius 3 at distance 4 from
a target of radius 2 (strictly inside the radius sum 5) is reported. -/
theorem checkCollision_strict_witness :
    boundaryProjectile.active = true ∧
    boundaryProjectile.checkCollision ⟨4, 0, 0⟩ 2 = true :=
  ⟨rfl,
    (checkCollision_strict boundaryProjectile ⟨4, 0, 0⟩ 2 [] rfl).1.mpr
      (by norm_num [boundaryProjectile, mkProjectile_position, mkProjectile_hitRadius,
        dist2, jsOr])⟩

/-- Claim C1 counterexample: an active projectile exactly on the
boundary (distance 5 = hit radius 3 + target radius 2) is NOT reported —
the code compares strictly, the claim demands a hit at equality. -/
theorem checkCollision_boundary_cex :
    boundaryProjectile.active = true ∧
    dist2 boundaryProjectile.position ⟨5, 0, 0⟩ =
      (boundaryProjectile.hitRadius + 2) * (boundaryProjectile.hitRadius + 2) ∧
    boundaryProjectile.checkCollision ⟨5, 0, 0⟩ 2 = false ∧
    (checkCollisions [boundaryProjectile] ⟨5, 0, 0⟩ 2).1 = [] := by
  have hmiss : boundaryProjectile.checkCollision ⟨5, 0, 0⟩ 2 = false := by
    simp only [Projectile.checkCollision, boundaryProjectile, mkProjectile_active,
      mkProjectile_position, mkProjectile_hitRadius]
    norm_num [dist2, jsOr]
  refine ⟨rfl, ?_, hmiss, ?_⟩
  · norm_num [boundaryProjectile, mkProjectile_position, mkProjectile_hitRadius, dist2, jsOr]
  · simp [checkCollisions, hmiss]

/-- Claim C3: the rate limit admits exactly one projectile from two
firing attempts less than minFireInterval apart — the first attempt (at
or past the interval since the last fire) spawns one and records its
time, the second spawns none; in general an attempt fires iff
`now - lastFireTime ≥ minFireInterval` and records `lastFireTime = now`
on success. -/
theorem fire_rate_limit (s : WeaponState) (deltaTime timeManager now1 now2 : ℚ)
    (hfire : s.isFiring = true)
    (h1 : minFireInterval ≤ now1 - s.lastFireTime)
    (h2 : now2 - now1 < minFireInterval) :
    (weaponUpdate s deltaTime timeManager now1).2 = 1 ∧
    (weaponUpdate s deltaTime timeManager now1).1.lastFireTime = now1 ∧
    (weaponUpdate (weaponUpdate s deltaTime timeManager now1).1 deltaTime timeManager now2).2 = 0 ∧
    (weaponUpdate s deltaTime timeManager now1).2 +
      (weaponUpdate (weaponUpdate s deltaTime timeManager now1).1
        deltaTime timeManager now2).2 = 1 ∧
    (∀ (s' : WeaponState) (n : ℚ),
      ((tryFireWeapon s' timeManager n).2 = 1 ↔ minFireInterval ≤ n - s'.lastFireTime) ∧
      (minFireInterval ≤ n - s'.lastFireTime →
        (tryFireWeapon s' timeManager n).1.lastFireTime = n)) := by
  have hs1 : ¬ (now1 - s.lastFireTime < minFireInterval) := not_lt.mpr h1
  refine ⟨?_, ?_, ?_, ?_, ?_⟩
  · simp [weaponUpdate, tryFireWeapon, hfire, hs1]
  · simp [weaponUpdate, tryFireWeapon, hfire, hs1]
  · simp [weaponUpdate, tryFireWeapon, hfire, hs1, h2]
  · simp [weaponUpdate, tryFireWeapon, hfire, hs1, h2]
  · intro s' n
    constructor
    · by_cases h : n - s'.lastFireTime < minFireInterval
      · simp [tryFireWeapon, h, not_le.mpr h]
      · simp [tryFireWeapon, h, not_lt.mp h]
    · intro h
      simp [tryFireWeapon, not_lt.mpr h]

/-- Claim C3 witness: with the trigger held and last fire at 0, attempts
at 250 and then 380 (130 ms apart, under the 200 ms interval) spawn
exactly one projectile in total. -/
theorem fire_rate_limit_witness :
    (weaponUpdate ⟨0, 0, true⟩ (1/60) 250 250).2 +
      (weaponUpdate (weaponUpdate ⟨0, 0, true⟩ (1/60) 250 250).1 (1/60) 380 380).2 = 1 :=
  (fire_rate_limit ⟨0, 0, true⟩ (1/60) 250 250 380 rfl
    (by norm_num [minFireInterval]) (by norm_num [minFireInterval])).2.2.2.1

/-- Claim C5: the firing decision of WeaponSystem.update is NOT a
function of its explicit inputs — with identical controller state and
identical (deltaTime, timeManager) arguments, two runs differing only in
the value the body's `Date.now()` global-clock read returns make
different decisions (0 spawns at clock 100, 1 spawn at clock 300, with
lastFireTime 0 and the trigger held). -/
theorem weaponUpdate_global_clock :
    (weaponUpdate ⟨0, 0, true⟩ (1/60) 1000 100).2 = 0 ∧
    (weaponUpdate ⟨0, 0, true⟩ (1/60) 1000 300).2 = 1 ∧
    ¬ (weaponUpdate ⟨0, 0, true⟩ (1/60) 1000 100).2 =
        (weaponUpdate ⟨0, 0, true⟩ (1/60) 1000 300).2 := by
  have h1 : (weaponUpdate ⟨0, 0, true⟩ (1/60) 1000 100).2 = 0 := by
    norm_num [weaponUpdate, tryFireWeapon, minFireInterval]
  have h2 : (weaponUpdate ⟨0, 0, true⟩ (1/60) 1000 300).2 = 1 := by
    norm_num [weaponUpdate, tryFireWeapon, minFireInterval]
  refine ⟨h1, h2, ?_⟩
  rw [h1, h2]
  norm_num

/-- Claim C9: Projectile.update returns false and leaves the position
unchanged both when the projectile is already inactive at entry and when
its age plus `deltaTime * 1000` reaches the lifetime — the expiry check
precedes the movement step, so an expiring projectile is deactivated
where it was. -/
theorem projectile_update_expiry (p : Projectile) (deltaTime : ℚ) :
    (p.active = false → p.update deltaTime = (p, false)) ∧
    (p.active = true → p.lifetime ≤ p.age + deltaTime * 1000 →
      (p.update deltaTime).2 = false ∧
      (p.update deltaTime).1.position = p.position ∧
      (p.update deltaTime).1.active = false) := by
  constructor
  · intro h
    simp [Projectile.update, h]
  · intro h1 h2
    simp [Projectile.update, h1, h2]

/-- Claim C9 witness: a fresh default projectile (lifetime 1500 ms,
age 0) advanced by 2 s expires — update returns false, the position
stays at the spawn point and the projectile is deactivated. -/
theorem projectile_update_expiry_witness :
    (boundaryProjectile.update 2).2 = false ∧
    (boundaryProjectile.update 2).1.position = boundaryProjectile.position ∧
    (boundaryProjectile.update 2).1.active = false :=
  (projectile_update_expiry boundaryProjectile 2).2 rfl
    (by norm_num [boundaryProjectile, mkProjectile_lifetime, mkProjectile_age])

/-- Claim C10: the constructor treats a configured hit radius of 0 as
absent — the stored hitRadius is the configured value when nonzero,
otherwise `2 * size` (or 2 when the size is also 0 or absent); hence
every projectile built from a non-negative config has a strictly
positive hit radius. -/
theorem hitRadius_defaulting (position direction : Vec3) (config : ProjectileConfig) :
    (∀ h : ℚ, config.hitRadius = some h → h ≠ 0 →
      (mkProjectile position direction config).hitRadius = h) ∧
    (∀ sz : ℚ, (config.hitRadius = none ∨ config.hitRadius = some 0) →
      config.size = some sz → sz ≠ 0 →
      (mkProjectile position direction config).hitRadius = sz * 2) ∧
    ((config.hitRadius = none ∨ config.hitRadius = some 0) →
      (config.size = none ∨ config.size = some 0) →
      (mkProjectile position direction config).hitRadius = 2) ∧
    ((∀ h : ℚ, config.hitRadius = some h → 0 ≤ h) →
      (∀ sz : ℚ, config.size = some sz → 0 ≤ sz) →
      0 < (mkProjectile position direction config).hitRadius) := by
  have hval : (mkProjectile position direction config).hitRadius =
      jsOr config.hitRadius (jsOr config.size 1 * 2) := rfl
  refine ⟨?_, ?_, ?_, ?_⟩
  · intro h hh hne
    simp [hval, hh, jsOr, hne]
  · intro sz hr hsz hne
    rcases hr with hr | hr <;> simp [hval, hr, hsz, jsOr, hne]
  · intro hr hsz
    rcases hr with hr | hr <;> rcases hsz with hs | hs <;> simp [hval, hr, hs, jsOr]
  · intro hhr hhs
    rw [hval]
    rcases hcfg : config.hitRadius with _ | h
    · rcases hs : config.size with _ | sz
      · simp [jsOr]
      · rcases eq_or_ne sz 0 with h0 | h0
        · simp [jsOr, h0]
        · have := hhs sz hs
          simp only [jsOr, h0, if_false]
          positivity
    · rcases eq_or_ne h 0 with h0 | h0
      · rcases hs : config.size with _ | sz
        · simp [jsOr, h0]
        · rcases eq_or_ne sz 0 with hsz0 | hsz0
          · simp [jsOr, h0, hsz0]
          · have := hhs sz hs
            simp only [jsOr, h0, if_true, hsz0, if_false]
            positivity
      · have := hhr h hcfg
        simp only [jsOr, h0, if_false]
        exact lt_of_le_of_ne this (Ne.symm h0)

/-- Claim C10 witness: a config with hitRadius 0 and size 0 yields the
fallback hit radius 2, which is strictly positive. -/
theorem hitRadius_defaulting_witness :
    (mkProjectile ⟨0, 0, 0⟩ ⟨0, 0, 1⟩
      { speed := 350, damage := 3, lifetime := 1500,
        size := some 0, hitRadius := some 0 }).hitRadius = 2 :=
  (hitRadius_defaulting ⟨0, 0, 0⟩ ⟨0, 0, 1⟩
    { speed := 350, damage := 3, lifetime := 1500,
      size := some 0, hitRadius := some 0 }).2.2.1
    (Or.inr rfl) (Or.inr rfl)

/-- The store produced by createProjectile: the head is shifted off
exactly when the store is at capacity, and the new projectile is pushed
at the end. -/
lemma createProjectile_fst (store : List Projectile) (pos dir : Vec3)
    (cfg : ProjectileConfigOverride) :
    (createProjectile store pos dir cfg).1 =
      (if maxProjectiles ≤ store.length then store.tail else store) ++
        [mkProjectile pos dir (mergeConfig cfg)] := rfl

/-- A run of spawns starting from a store within capacity keeps exactly
the suffix of the would-be unbounded store that fits the capacity. -/
lemma runSpawns_model (args : List (Vec3 × Vec3 × ProjectileConfigOverride)) :
    ∀ store : List Projectile, store.length ≤ maxProjectiles →
      runSpawns store args =
        (store ++ args.map fun a => mkProjectile a.1 a.2.1 (mergeConfig a.2.2)).drop
          (store.length + args.length - maxProjectiles) := by
  induction args with
  | nil =>
    intro store h
    simp only [runSpawns, List.map_nil, List.append_nil, List.length_nil, Nat.add_zero]
    have hidx : store.length - maxProjectiles = 0 := by omega
    rw [hidx, List.drop_zero]
  | cons a rest ih =>
    intro store h
    rw [runSpawns, createProjectile_fst]
    by_cases hc : maxProjectiles ≤ store.length
    · have h20 : store.length = maxProjectiles := le_antisymm h hc
      cases store with
      | nil => simp [maxProjectiles] at h20
      | cons hd tl =>
        have htl : tl.length + 1 = maxProjectiles := by simpa using h20
        rw [if_pos hc, List.tail_cons]
        have hle : (tl ++ [mkProjectile a.1 a.2.1 (mergeConfig a.2.2)]).length ≤
            maxProjectiles := by
          simp only [List.length_append, List.length_cons, List.length_nil]
          omega
        rw [ih _ hle]
        have e2 : (tl ++ [mkProjectile a.1 a.2.1 (mergeConfig a.2.2)]).length +
            rest.length - maxProjectiles = rest.length := by
          simp only [List.length_append, List.length_cons, List.length_nil]
          omega
        have e1 : (hd :: tl).length + (a :: rest).length - maxProjectiles =
            rest.length + 1 := by
          simp only [List.length_cons]
          omega
        rw [e1, e2, List.map_cons, List.cons_append, List.drop_succ_cons,
          List.append_assoc, List.singleton_append]
    · rw [if_neg hc]
      have hle : (store ++ [mkProjectile a.1 a.2.1 (mergeConfig a.2.2)]).length ≤
          maxProjectiles := by
        simp only [List.length_append, List.length_cons, List.length_nil]
        omega
      rw [ih _ hle]
      have e : (store ++ [mkProjectile a.1 a.2.1 (mergeConfig a.2.2)]).length +
          rest.length - maxProjectiles =
          store.length + (a :: rest).length - maxProjectiles := by
        simp only [List.length_append, List.length_cons, List.length_nil]
        omega
      rw [e, List.map_cons, List.append_assoc, List.singleton_append]

/-- Claim C2: spawning more than the capacity of 20 projectiles on one
manager leaves exactly 20 live, and they are the 20 most recently
spawned in spawn order; a spawn at capacity evicts the oldest entry (the
array head) before pushing the new one, and every spawn succeeds — the
new projectile is always the last element of the store. -/
theorem createProjectile_fifo (args : List (Vec3 × Vec3 × ProjectileConfigOverride))
    (hn : maxProjectiles < args.length) :
    (runSpawns [] args).length = maxProjectiles ∧
    runSpawns [] args =
      (args.drop (args.length - maxProjectiles)).map
        (fun a => mkProjectile a.1 a.2.1 (mergeConfig a.2.2)) ∧
    (∀ (store : List Projectile) (pos dir : Vec3) (cfg : ProjectileConfigOverride),
      maxProjectiles ≤ store.length →
      (createProjectile store pos dir cfg).1 =
        store.tail ++ [mkProjectile pos dir (mergeConfig cfg)]) ∧
    (∀ (store : List Projectile) (pos dir : Vec3) (cfg : ProjectileConfigOverride),
      ((createProjectile store pos dir cfg).1).getLast? =
        some (mkProjectile pos dir (mergeConfig cfg))) := by
  have hmodel := runSpawns_model args [] (by simp)
  simp only [List.nil_append, List.length_nil, Nat.zero_add] at hmodel
  have hdrop : runSpawns [] args =
      (args.drop (args.length - maxProjectiles)).map
        (fun a => mkProjectile a.1 a.2.1 (mergeConfig a.2.2)) := by
    rw [hmodel, List.map_drop]
  refine ⟨?_, hdrop, ?_, ?_⟩
  · rw [hdrop]
    simp only [List.length_map, List.length_drop]
    omega
  · intro store pos dir cfg hcap
    rw [createProjectile_fst, if_pos hcap]
  · intro store pos dir cfg
    rw [createProjectile_fst]
    simp

/-- The 21 spawn calls used to instantiate claim C2. -/
def spawnArgs21 : List (Vec3 × Vec3 × ProjectileConfigOverride) :=
  (List.range 21).map fun (k : ℕ) => (⟨(k : ℚ), 0, 0⟩, ⟨0, 0, 1⟩, emptyOverride)

/-- Claim C2 witness: 21 consecutive spawns on an empty manager leave
exactly 20 projectiles. -/
theorem createProjectile_fifo_witness :
    maxProjectiles < spawnArgs21.length ∧ (runSpawns [] spawnArgs21).length = maxProjectiles := by
  have hlen : spawnArgs21.length = 21 := by
    rw [spawnArgs21, List.length_map, List.length_range]
  have hgt : maxProjectiles < spawnArgs21.length := by
    rw [hlen, maxProjectiles]
    norm_num
  exact ⟨hgt, (createProjectile_fifo spawnArgs21 hgt).1⟩

/-- The squared length of a scaled vector. -/
lemma vlen2_vscale (a : ℚ) (v : Vec3) : vlen2 (vscale a v) = a * a * vlen2 v := by
  simp only [vlen2, vscale]
  ring

/-- The exact rational square root of a perfect square of a positive
rational is that rational. -/
lemma sqrtQ_mul_self (l : ℚ) (h : 0 < l) : sqrtQ (l * l) = l := by
  have hnum : (0 : ℤ) < l.num := Rat.num_pos.mpr h
  have hnn : l.num = (l.num.toNat : ℤ) := (Int.toNat_of_nonneg hnum.le).symm
  obtain ⟨n, hn⟩ := Int.eq_ofNat_of_zero_le hnum.le
  have hmulnum : (l * l).num.toNat = l.num.toNat * l.num.toNat := by
    rw [Rat.mul_self_num, hn, ← Nat.cast_mul, Int.toNat_natCast, Int.toNat_natCast]
  have hmulden : (l * l).den = l.den * l.den := Rat.mul_self_den l
  rw [sqrtQ, hmulnum, hmulden, Nat.sqrt_eq, Nat.sqrt_eq]
  have hfinal := Rat.num_div_den l
  rw [hnn, Int.cast_natCast] at hfinal
  exact hfinal

/-- `normalize` leaves a zero-length vector unchanged: the source
divides by `length() || 1`, i.e. by 1. -/
lemma vnormalize_zero (v : Vec3) (h : vlen2 v = 0) : vnormalize v = v := by
  have hl : vlength v = 0 := by
    rw [vlength, h]
    simp [sqrtQ]
  rcases v with ⟨x, y, z⟩
  simp [vnormalize, hl, vscale]

/-- Claim C4 counterexample: a spawn with the zero-length direction is
NOT rejected — the manager adds the projectile to the store (the count
rises from 0 to 1), storing the zero vector itself as the direction. -/
theorem spawn_zero_direction_cex :
    vlen2 ⟨0, 0, 0⟩ = 0 ∧
    ((createProjectile [] ⟨0, 0, 0⟩ ⟨0, 0, 0⟩ emptyOverride).1).length = 1 ∧
    (createProjectile [] ⟨0, 0, 0⟩ ⟨0, 0, 0⟩ emptyOverride).1 =
      [mkProjectile ⟨0, 0, 0⟩ ⟨0, 0, 0⟩ (mergeConfig emptyOverride)] ∧
    (mkProjectile ⟨0, 0, 0⟩ ⟨0, 0, 0⟩ (mergeConfig emptyOverride)).direction = ⟨0, 0, 0⟩ := by
  have hz : vlen2 (⟨0, 0, 0⟩ : Vec3) = 0 := by norm_num [vlen2]
  refine ⟨hz, ?_, ?_, ?_⟩
  · rw [createProjectile_fst]
    simp [maxProjectiles]
  · rw [createProjectile_fst]
    simp [maxProjectiles]
  · rw [mkProjectile_direction, vnormalize_zero _ hz]

/-- Claim C4 (amended): a zero-length spawn direction is not rejected
and no error is reported — the projectile is constructed and appended to
the store like any other, with the zero vector stored unchanged as its
direction (THREE's `normalize` divides by `length || 1`); for a non-zero
direction whose Euclidean length is exactly representable as a rational,
the stored direction is the input scaled by the reciprocal of its
length, hence of unit (squared) length. -/
theorem spawn_direction_normalized (store : List Projectile) (position direction : Vec3)
    (config : ProjectileConfigOverride) :
    ((createProjectile store position direction config).1).getLast? =
      some (mkProjectile position direction (mergeConfig config)) ∧
    (vlen2 direction = 0 →
      (mkProjectile position direction (mergeConfig config)).direction = direction) ∧
    (∀ l : ℚ, 0 < l → l * l = vlen2 direction →
      (mkProjectile position direction (mergeConfig config)).direction =
        vscale (1 / l) direction ∧
      vlen2 (mkProjectile position direction (mergeConfig config)).direction = 1) := by
  refine ⟨?_, ?_, ?_⟩
  · rw [createProjectile_fst]
    simp
  · intro h
    rw [mkProjectile_direction, vnormalize_zero _ h]
  · intro l hl hsq
    have hlen : vlength direction = l := by
      rw [vlength, ← hsq, sqrtQ_mul_self l hl]
    have hnorm : vnormalize direction = vscale (1 / l) direction := by
      rw [vnormalize, hlen, if_neg hl.ne']
    refine ⟨by rw [mkProjectile_direction, hnorm], ?_⟩
    rw [mkProjectile_direction, hnorm, vlen2_vscale, ← hsq]
    field_simp

/-- Claim C4 witness: the direction (3,4,0) has exact length 5; the
stored direction is (3/5, 4/5, 0), of unit squared length, and the
projectile is appended to the store. -/
theorem spawn_direction_normalized_witness :
    (0 : ℚ) < 5 ∧
    (mkProjectile ⟨0, 0, 0⟩ ⟨3, 4, 0⟩ (mergeConfig emptyOverride)).direction =
      vscale (1 / 5) ⟨3, 4, 0⟩ ∧
    vlen2 (mkProjectile ⟨0, 0, 0⟩ ⟨3, 4, 0⟩ (mergeConfig emptyOverride)).direction = 1 :=
  ⟨by norm_num,
    ((spawn_direction_normalized [] ⟨0, 0, 0⟩ ⟨3, 4, 0⟩ emptyOverride).2.2 5
      (by norm_num) (by norm_num [vlen2])).1,
    ((spawn_direction_normalized [] ⟨0, 0, 0⟩ ⟨3, 4, 0⟩ emptyOverride).2.2 5
      (by norm_num) (by norm_num [vlen2])).2⟩

lemma handleInput_throttle (s : AircraftState) (i : FrameInput) :
    (handleInput s i).throttle = s.throttle := rfl

lemma updateTransform_throttle (s : AircraftState) :
    (updateTransform s).throttle = s.throttle := rfl

lemma updatePhysics_throttle (s : AircraftState) (dt : ℚ) :
    (updatePhysics s dt).throttle =
      if s.isAccelerating then min (s.throttle + 1/20) 1
      else if s.isDecelerating then max (s.throttle - 2/25) 0
      else s.throttle := rfl

lemma frame_throttle (s : AircraftState) (i : FrameInput) (dt : ℚ) :
    (frame s i dt).throttle = (updatePhysics (handleInput s i) dt).throttle := rfl

/-- One updatePhysics step keeps the throttle inside the unit interval:
the accelerating branch clamps at 1, the decelerating branch at 0, and
the idle branch leaves it unchanged. -/
lemma updatePhysics_throttle_mem (s : AircraftState) (dt : ℚ)
    (h0 : 0 ≤ s.throttle) (h1 : s.throttle ≤ 1) :
    0 ≤ (updatePhysics s dt).throttle ∧ (updatePhysics s dt).throttle ≤ 1 := by
  rw [updatePhysics_throttle]
  split_ifs with ha hd
  · exact ⟨le_min (by linarith) (by norm_num), min_le_right _ _⟩
  · exact ⟨le_max_right _ _, max_le (by linarith) (by norm_num)⟩
  · exact ⟨h0, h1⟩

/-- The throttle invariant is preserved over any run of frames. -/
lemma runFrames_throttle_mem (frames : List (FrameInput × ℚ)) :
    ∀ s : AircraftState, 0 ≤ s.throttle → s.throttle ≤ 1 →
      0 ≤ (runFrames s frames).throttle ∧ (runFrames s frames).throttle ≤ 1 := by
  induction frames with
  | nil => exact fun s h0 h1 => ⟨h0, h1⟩
  | cons f rest ih =>
    intro s h0 h1
    rw [runFrames]
    have hstep := updatePhysics_throttle_mem (handleInput s f.1) f.2
      (by rwa [handleInput_throttle]) (by rwa [handleInput_throttle])
    exact ih _ (by rw [frame_throttle]; exact hstep.1) (by rw [frame_throttle]; exact hstep.2)

/-- Claim C6: updatePhysics keeps the throttle inside [0, 1] from any
state already inside it, for every delta-time and every combination of
the accelerating/decelerating flags; consequently, starting from the
constructor's initial throttle 0, the bound holds after every frame of
every run. -/
theorem throttle_bounds :
    (∀ (s : AircraftState) (deltaTime : ℚ), 0 ≤ s.throttle → s.throttle ≤ 1 →
      0 ≤ (updatePhysics s deltaTime).throttle ∧ (updatePhysics s deltaTime).throttle ≤ 1) ∧
    (∀ (cfgMaxSpeed : Option ℚ) (cfgModelType : Option ℤ) (frames : List (FrameInput × ℚ)),
      0 ≤ (runFrames (initAircraft cfgMaxSpeed cfgModelType) frames).throttle ∧
      (runFrames (initAircraft cfgMaxSpeed cfgModelType) frames).throttle ≤ 1) := by
  refine ⟨updatePhysics_throttle_mem, ?_⟩
  intro cfgMaxSpeed cfgModelType frames
  exact runFrames_throttle_mem frames _ le_rfl (show (0:ℚ) ≤ 1 by norm_num)

/-- Claim C6 witness: one accelerating physics step from the default
initial state (throttle 0) stays inside [0, 1]. -/
theorem throttle_bounds_witness :
    0 ≤ (updatePhysics demoAircraft (1/60)).throttle ∧
    (updatePhysics demoAircraft (1/60)).throttle ≤ 1 :=
  throttle_bounds.1 demoAircraft (1/60) le_rfl (show (0:ℚ) ≤ 1 by norm_num)

lemma handleInput_pitch (s : AircraftState) (i : FrameInput) :
    (handleInput s i).rotation.x = seekAngle s.rotation.x (targetPitch i) := rfl

lemma frame_pitch (s : AircraftState) (i : FrameInput) (dt : ℚ) :
    (frame s i dt).rotation.x = (handleInput s i).rotation.x := rfl

/-- Every target pitch handleInput can select lies within ±0.3. -/
lemma abs_targetPitch (i : FrameInput) : |targetPitch i| ≤ 3/10 := by
  rw [targetPitch]
  split_ifs <;> (rw [abs_le]; constructor <;> norm_num)

/-- The seek step stays within ±0.3 when both the current value and the
target do: the snap case lands on the target, the interpolation case is
a convex combination 0.7·current + 0.3·target. -/
lemma abs_seekAngle (c t : ℚ) (hc : |c| ≤ 3/10) (ht : |t| ≤ 3/10) :
    |seekAngle c t| ≤ 3/10 := by
  rw [seekAngle]
  split_ifs with h
  · exact ht
  · have hrw : c + (t - c) * transitionRateC = c * (7/10) + t * (3/10) := by
      rw [transitionRateC]
      ring
    rw [hrw]
    have habs : |c * (7/10) + t * (3/10)| ≤ |c| * (7/10) + |t| * (3/10) := by
      calc |c * (7/10) + t * (3/10)| ≤ |c * (7/10)| + |t * (3/10)| := abs_add _ _
        _ = |c| * (7/10) + |t| * (3/10) := by
            rw [abs_mul, abs_mul, abs_of_nonneg (by norm_num : (0:ℚ) ≤ 7/10),
              abs_of_nonneg (by norm_num : (0:ℚ) ≤ 3/10)]
    linarith

/-- The pitch invariant is preserved over any run of frames (only
handleInput touches the rotation). -/
lemma runFrames_pitch_mem (frames : List (FrameInput × ℚ)) :
    ∀ s : AircraftState, |s.rotation.x| ≤ 3/10 →
      |(runFrames s frames).rotation.x| ≤ 3/10 := by
  induction frames with
  | nil => exact fun s h => h
  | cons f rest ih =>
    intro s h
    rw [runFrames]
    refine ih _ ?_
    rw [frame_pitch, handleInput_pitch]
    exact abs_seekAngle _ _ h (abs_targetPitch f.1)

/-- A rational pitch within ±0.3 lies within ±π/3. -/
lemma pitch_in_pi_bounds (q : ℚ) (h : |q| ≤ 3/10) :
    -(Real.pi / 3) ≤ (q : ℝ) ∧ (q : ℝ) ≤ Real.pi / 3 := by
  have h' : |(q : ℝ)| ≤ 3/10 := by
    have h2 : ((|q| : ℚ) : ℝ) ≤ (((3 : ℚ)/10 : ℚ) : ℝ) := Rat.cast_le.mpr h
    rw [Rat.cast_abs] at h2
    push_cast at h2
    exact h2
  have habs := abs_le.mp h'
  have hpi := Real.pi_gt_three
  constructor <;> linarith [habs.1, habs.2]

/-- Claim C7: the pitch (rotation.x) stays within ±0.3 across every
handleInput integration step from a pitch already within that band, and
therefore within [-π/3, π/3] after every frame of every run starting
from resetState (pitch 0) or from the constructor's initial
orientation. -/
theorem pitch_bounds :
    (∀ (s : AircraftState) (i : FrameInput),
      |s.rotation.x| ≤ 3/10 → |(handleInput s i).rotation.x| ≤ 3/10) ∧
    (∀ (s0 : AircraftState) (frames : List (FrameInput × ℚ)),
      -(Real.pi / 3) ≤ ((runFrames (resetState s0) frames).rotation.x : ℝ) ∧
      ((runFrames (resetState s0) frames).rotation.x : ℝ) ≤ Real.pi / 3) ∧
    (∀ (cfgMaxSpeed : Option ℚ) (cfgModelType : Option ℤ) (frames : List (FrameInput × ℚ)),
      -(Real.pi / 3) ≤
        ((runFrames (initAircraft cfgMaxSpeed cfgModelType) frames).rotation.x : ℝ) ∧
      ((runFrames (initAircraft cfgMaxSpeed cfgModelType) frames).rotation.x : ℝ) ≤
        Real.pi / 3) := by
  refine ⟨?_, ?_, ?_⟩
  · intro s i h
    rw [handleInput_pitch]
    exact abs_seekAngle _ _ h (abs_targetPitch i)
  · intro s0 frames
    refine pitch_in_pi_bounds _ (runFrames_pitch_mem frames (resetState s0) ?_)
    norm_num [resetState]
  · intro cfgMaxSpeed cfgModelType frames
    refine pitch_in_pi_bounds _ (runFrames_pitch_mem frames _ ?_)
    norm_num [initAircraft]

/-- Claim C7 witness: one pitch-up handleInput step from the default
initial state keeps the pitch within ±0.3. -/
theorem pitch_bounds_witness :
    |(handleInput demoAircraft ⟨true, false, false, false, false, false⟩).rotation.x| ≤ 3/10 :=
  pitch_bounds.1 demoAircraft ⟨true, false, false, false, false, false⟩ (by norm_num [demoAircraft, initAircraft])

/-- Claim C8 counterexample: setModelType with the valid id 1 on the
default-constructed aircraft (modelType 1, maxSpeed 200) returns early —
maxSpeed is NOT remapped to the table value 120, contradicting the claim
that every id in 1..5 remaps maxSpeed from the model table. -/
theorem setModelType_no_remap_cex :
    (1 ≤ (1 : ℤ) ∧ (1 : ℤ) ≤ 5) ∧
    setModelType demoAircraft 1 = (demoAircraft, none) ∧
    (setModelType demoAircraft 1).1.maxSpeed = 200 ∧
    specModelSpeed 1 = 120 ∧
    (setModelType demoAircraft 1).1.maxSpeed ≠ specModelSpeed 1 := by
  have hmt : (1 : ℤ) = demoAircraft.modelType := rfl
  have hset : setModelType demoAircraft 1 = (demoAircraft, none) := by
    rw [setModelType, if_pos hmt]
  have hms : (setModelType demoAircraft 1).1.maxSpeed = 200 := by
    rw [hset]
    rfl
  refine ⟨⟨le_refl 1, by norm_num⟩, hset, hms, rfl, ?_⟩
  rw [hms]
  norm_num [specModelSpeed]

/-- Claim C8 (amended): an id outside 1..5 (necessarily different from
the current modelType of any validly-configured state) is rejected by
both changeAircraftModel and setModelType with an error report and the
whole state unchanged; for an id in 1..5, changeAircraftModel updates
modelType, remaps maxSpeed from the five-entry model table and leaves
position, rotation, velocity and throttle untouched, and setModelType
does the same exactly when the id differs from the current modelType —
when it is equal, setModelType is a silent no-op that does not remap
maxSpeed. -/
theorem model_change_validation (s : AircraftState) (bad good : ℤ)
    (hbad : bad < 1 ∨ 5 < bad) (hneq : bad ≠ s.modelType)
    (hg1 : 1 ≤ good) (hg5 : good ≤ 5) :
    changeAircraftModel s bad = (s, some invalidModelMsg) ∧
    setModelType s bad = (s, some invalidModelMsg) ∧
    (changeAircraftModel s good).2 = none ∧
    (changeAircraftModel s good).1.modelType = good ∧
    (changeAircraftModel s good).1.maxSpeed = specModelSpeed good ∧
    (changeAircraftModel s good).1.position = s.position ∧
    (changeAircraftModel s good).1.rotation = s.rotation ∧
    (changeAircraftModel s good).1.velocity = s.velocity ∧
    (changeAircraftModel s good).1.throttle = s.throttle ∧
    (good ≠ s.modelType → setModelType s good = changeAircraftModel s good) ∧
    (good = s.modelType → setModelType s good = (s, none)) := by
  have hrej : changeAircraftModel s bad = (s, some invalidModelMsg) := by
    rw [changeAircraftModel, if_pos hbad]
  have hok : ¬ (good < 1 ∨ 5 < good) := by omega
  have hchg : changeAircraftModel s good =
      ({ s with
          modelType := good
          maxSpeed := ((aircraftModels.get? (good - 1).toNat).map Prod.snd).getD 0 }, none) := by
    rw [changeAircraftModel, if_neg hok]
  refine ⟨hrej, ?_, ?_, ?_, ?_, ?_, ?_, ?_, ?_, ?_, ?_⟩
  · rw [setModelType, if_neg hneq]
    exact hrej
  · rw [hchg]
  · rw [hchg]
  · rw [hchg]
    interval_cases good <;> rfl
  · rw [hchg]
  · rw [hchg]
  · rw [hchg]
  · rw [hchg]
  · intro h
    rw [setModelType, if_neg h]
  · intro h
    rw [setModelType, if_pos h]

/-- Claim C8 witness: on the default aircraft, the invalid id 7 is
rejected with the state unchanged, and the valid id 2 remaps maxSpeed
to the table value 100. -/
theorem model_change_validation_witness :
    changeAircraftModel demoAircraft 7 = (demoAircraft, some invalidModelMsg) ∧
    (changeAircraftModel demoAircraft 2).1.maxSpeed = specModelSpeed 2 :=
  ⟨(model_change_validation demoAircraft 7 2 (by norm_num)
      (by norm_num [demoAircraft, initAircraft, jsOr]) (by norm_num) (by norm_num)).1,
    (model_change_validation demoAircraft 7 2 (by norm_num)
      (by norm_num [demoAircraft, initAircraft, jsOr]) (by norm_num)
      (by norm_num)).2.2.2.2.1⟩

end RadicalAces
